import Mathlib

/-!
# Fraud-detection order consumer: shallow embedding

Shallow embedding of the Kotlin fraud-detection service of the
opentelemetry-demo repository (`main.kt`: the `main` consumer loop and
`getFeatureFlagValue`), together with models of the collaborating classes
(`FraudAnalytics`, `OrderMutator`) whose sources are not part of the
snapshot and are therefore modelled from the specification.

External effects (Kafka polling, protobuf decoding, the flagd feature-flag
service, the database repository, the analytics engine's persistence and the
bad-query injector) are represented by an `Env` record of oracles; the
consumer loop is a fold over the list of payloads returned by a poll,
threading an explicit `ConsumerState`.
-/

namespace FraudDetection

/-- A serialized Kafka record value (a byte array). -/
abbrev Payload := List Nat

/-- One line item of an order.  Modelled from the spec: an Order carries a
list of line items with quantities and unit prices. -/
structure OrderItem where
  productId : String
  quantity : Nat
  unitPriceUnits : Int
  deriving DecidableEq, Repr

/-- An order-completion event.  Modelled from the spec: orderId (unique per
transaction), list of line items, shipping/billing info, monetary totals,
currency code, timestamp. -/
structure Order where
  orderId : String
  items : List OrderItem
  shippingCountry : String
  billingCountry : String
  totalUnits : Int
  currencyCode : String
  timestamp : Nat
  deriving DecidableEq, Repr

/-- Severity tiers of a fraud alert (spec §3: tiered enum). -/
inductive Severity where
  | LOW
  | MEDIUM
  | HIGH
  | CRITICAL
  deriving DecidableEq, Repr

/-- A fraud alert: orderId, severity, numeric risk score, reason (spec §3). -/
structure FraudAlert where
  orderId : String
  severity : Severity
  riskScore : Nat
  reason : String
  deriving DecidableEq, Repr

/-! ## Kotlin numeric parsing

`main.kt` reads `CLEANUP_RETENTION_DAYS` with `String.toIntOrNull` and
`CLEANUP_INTERVAL_HOURS` with `String.toLongOrNull`.  Kotlin's parsers accept
an optional sign followed by one or more decimal digits and return null on
any other input and on overflow of the 32-bit (resp. 64-bit) signed range. -/

/-- Parse a nonempty all-digit character list as a natural number;
`none` on an empty list or any non-digit character. -/
def parseDigits (cs : List Char) : Option Nat :=
  match cs with
  | [] => none
  | _ =>
    cs.foldl
      (fun acc c =>
        match acc with
        | none => none
        | some n => if c.isDigit then some (10 * n + (c.toNat - 48)) else none)
      (some 0)

/-- Parse an optional leading sign and digits: returns (negative?, magnitude). -/
def parseSigned (s : String) : Option (Bool × Nat) :=
  match s.data with
  | '+' :: rest => (parseDigits rest).map (fun n => (false, n))
  | '-' :: rest => (parseDigits rest).map (fun n => (true, n))
  | cs => (parseDigits cs).map (fun n => (false, n))

/-- Kotlin `String.toIntOrNull`: decimal parse into the signed 32-bit range,
`none` on malformed input or overflow. -/
def toIntOrNull (s : String) : Option Int :=
  (parseSigned s).bind fun sn =>
    let v : Int := if sn.1 then -(sn.2 : Int) else (sn.2 : Int)
    if -2147483648 ≤ v ∧ v ≤ 2147483647 then some v else none

/-- Kotlin `String.toLongOrNull`: decimal parse into the signed 64-bit range,
`none` on malformed input or overflow. -/
def toLongOrNull (s : String) : Option Int :=
  (parseSigned s).bind fun sn =>
    let v : Int := if sn.1 then -(sn.2 : Int) else (sn.2 : Int)
    if -9223372036854775808 ≤ v ∧ v ≤ 9223372036854775807 then some v else none

/-! ## Startup configuration (`main.kt` lines 105-141) -/

/-- `System.getenv("CLEANUP_RETENTION_DAYS")?.toIntOrNull() ?: 7`. -/
def cleanupRetentionDays (getenv : String → Option String) : Int :=
  ((getenv "CLEANUP_RETENTION_DAYS").bind toIntOrNull).getD 7

/-- `System.getenv("CLEANUP_INTERVAL_HOURS")?.toLongOrNull() ?: 24`. -/
def cleanupIntervalHours (getenv : String → Option String) : Int :=
  ((getenv "CLEANUP_INTERVAL_HOURS").bind toLongOrNull).getD 24

/-- The arguments passed to `databaseCleanup.startCleanupScheduler`. -/
structure SchedulerStart where
  retentionDays : Int
  intervalHours : Int
  deriving DecidableEq, Repr

/-- Configuration assembled by a successful startup. -/
structure Config where
  bootstrapServers : String
  retentionDays : Int
  intervalHours : Int
  schedulerStart : SchedulerStart
  deriving DecidableEq, Repr

/-- The startup environment: the process environment variables and whether
`DatabaseConfig.initialize()` succeeds (it throws on failure). -/
structure StartupEnv where
  getenv : String → Option String
  dbInitOk : Bool

/-- Startup sequence of `main` before the consumer loop: initialize the
database (`exitProcess(1)` on exception), require `KAFKA_ADDR`
(`exitProcess(1)` when absent), read the cleanup configuration and start the
cleanup scheduler with exactly those values.  An `Except.error` carries the
process exit status. -/
def startup (se : StartupEnv) : Except Nat Config :=
  if se.dbInitOk then
    match se.getenv "KAFKA_ADDR" with
    | none => Except.error 1
    | some addr =>
      let rd := cleanupRetentionDays se.getenv
      let ih := cleanupIntervalHours se.getenv
      Except.ok
        { bootstrapServers := addr
          retentionDays := rd
          intervalHours := ih
          schedulerStart := { retentionDays := rd, intervalHours := ih } }
  else Except.error 1

/-! ## Spec-modelled collaborators

The classes `FraudAnalytics` and `OrderMutator` are instantiated and called
by `main.kt` but their sources are not part of this snapshot; they are
modelled from the specification. -/

namespace FraudAnalytics

/-- Modelled from the spec: `FraudAnalytics` is missing from the snapshot.
Heuristic rules applied against the order's attributes (total amount
thresholds, mismatched billing/shipping country, suspicious item
quantities); each rule contributes to a cumulative risk score and the
contributions sum.  Concrete weights are implementation details the spec
leaves open (§9); the documented choice here is 50/30 for the amount tiers
and 30 for each of the other two rules. -/
def riskScore (o : Order) : Nat :=
  (if (1000 : Int) ≤ o.totalUnits then 50
   else if (500 : Int) ≤ o.totalUnits then 30 else 0)
  + (if o.shippingCountry ≠ o.billingCountry then 30 else 0)
  + (if o.items.any (fun it => 10 ≤ it.quantity) then 30 else 0)

/-- Modelled from the spec: severity derived from scoring bands
(score ≥ 90 → CRITICAL, ≥ 70 → HIGH, ≥ 50 → MEDIUM, else no alert). -/
def severityForScore (s : Nat) : Option Severity :=
  if 90 ≤ s then some Severity.CRITICAL
  else if 70 ≤ s then some Severity.HIGH
  else if 50 ≤ s then some Severity.MEDIUM
  else none

/-- Modelled from the spec: `analyzeOrder(order) -> FraudAlert?` scores the
order and returns an alert when the score crosses the alert threshold,
`none` below threshold (the common case, not an error). -/
def analyzeOrder (o : Order) : Option FraudAlert :=
  let s := riskScore o
  match severityForScore s with
  | none => none
  | some sev =>
    some { orderId := o.orderId, severity := sev, riskScore := s,
           reason := "heuristic rule score" }

end FraudAnalytics

namespace OrderMutator

/-- Modelled from the spec: a corruption designed to look fraudulent
(inflate quantities, alter totals, swap shipping country); returns a
transformed copy, preserving the orderId. -/
def corruptOrder (o : Order) : Order :=
  { o with
    items := o.items.map (fun it => { it with quantity := it.quantity * 100 })
    totalUnits := o.totalUnits * 100
    shippingCountry := o.billingCountry ++ "-SWAP" }

/-- Modelled from the spec: `OrderMutator` is missing from the snapshot.
Given an order and a mutation probability `pct` (0-100 percent), decides
pseudo-randomly per order whether to corrupt; `rand` is the pseudo-random
draw, reduced to `[0, 100)`.  Does not mutate the input in place. -/
def mutateOrder (o : Order) (pct : Int) (rand : Nat) : Order :=
  if ((rand % 100 : Nat) : Int) < pct then corruptOrder o else o

end OrderMutator

/-! ## Feature-flag lookups (`getFeatureFlagValue`, `main.kt` lines 231-241)

Each call builds a fresh evaluation context whose `session` attribute is a
newly generated random UUID and asks the OpenFeature client for
`getIntegerValue(ff, 0)`, which returns the default `0` when the flag is
absent or the flag service is unreachable.  The fresh random UUID of the
n-th call is modelled by a session token distinct for every call index. -/

/-- The evaluation context of one flag lookup; `session` stands for the
random UUID generated for that single call. -/
structure EvalContext where
  session : Nat
  deriving DecidableEq, Repr

/-- The fresh context built by the n-th call to `getFeatureFlagValue`. -/
def freshContext (n : Nat) : EvalContext := { session := n }

/-- External oracles for all effects of the consumer loop. -/
structure Env where
  /-- `OrderResult.parseFrom`: protobuf decoding of a record value; throws
  (an `Except.error`) on a malformed payload. -/
  parse : Payload → Except String Order
  /-- The flagd service's answer for flag `ff` under a given evaluation
  context; `none` models flag absent or service unreachable. -/
  flagService : EvalContext → String → Option Int
  /-- `orderLogRepository.saveOrder`: true/false on handled outcomes,
  `Except.error` models a thrown infrastructure exception. -/
  saveOrder : Order → Except String Bool
  /-- `fraudAnalytics.analyzeOrder` as invoked by the loop: may return an
  alert, no alert, or throw (its scoring is modelled by
  `FraudAnalytics.analyzeOrder`; the thrown case covers its persistence). -/
  analyzeOrder : Order → Except String (Option FraudAlert)
  /-- `badQueryPatterns.maybeExecuteBadQuery(percentage)`: whether the bad
  query fired, or a thrown exception. -/
  badQuery : Int → Except String Bool
  /-- The pseudo-random draw consumed by the n-th mutator invocation. -/
  mutateRand : Nat → Nat

/-- `getFeatureFlagValue(ff)`: the n-th lookup evaluates `ff` under the
fresh context `freshContext n` with default value `0`. -/
def getFeatureFlagValue (env : Env) (n : Nat) (ff : String) : Int :=
  (env.flagService (freshContext n) ff).getD 0

/-! ## The consumer loop (`main.kt` lines 153-221) -/

/-- Log lines emitted while processing records, by constructor:
`queueProblemSleep`, `consumed`, `orderLogged`, `badQueryExecuted` and
`fraudStats` are info lines; `orderSaveFailedWarn` and `fraudAlertLogged`
are warnings; `orderSaveException`, `analysisError` and `badQueryError` are
error lines. -/
inductive LogEntry where
  | queueProblemSleep
  | consumed (orderId : String) (count : Nat)
  | orderLogged (orderId : String)
  | orderSaveFailedWarn (orderId : String)
  | orderSaveException (orderId : String)
  | fraudAlertLogged (orderId : String) (severity : Severity) (riskScore : Nat)
  | fraudStats
  | analysisError (orderId : String)
  | badQueryExecuted
  | badQueryError
  deriving DecidableEq, Repr

/-- The state threaded through the consumer loop: the running totals
(`totalCount`, `fraudAlertCount` of `main`), the index of the next feature
flag call, and observation logs (flag queries issued, mutator and analytics
invocation counts, orders handed to `saveOrder`, log lines). -/
structure ConsumerState where
  totalCount : Nat
  fraudAlertCount : Nat
  flagIdx : Nat
  flagQueries : List String
  mutatorInvocations : Nat
  analyzeInvocations : Nat
  savedOrders : List Order
  logs : List LogEntry
  deriving DecidableEq, Repr

/-- The state at process start: both counters zero, nothing observed yet. -/
def initialState : ConsumerState :=
  { totalCount := 0, fraudAlertCount := 0, flagIdx := 0, flagQueries := []
    mutatorInvocations := 0, analyzeInvocations := 0, savedOrders := []
    logs := [] }

/-- `main.kt` lines 165-171: if `fraudDetectionEnabled > 0`, read
`mutateFraudOrders` and mutate the order when that percentage is positive.
Returns (order to process, mutator invocation count, next flag index, flag
names queried by this block).  `fi` is the flag index of the record's
`kafkaQueueProblems` call, so this block's calls start at `fi + 1`. -/
def mutationStep (env : Env) (fi : Nat) (mutInv : Nat) (o0 : Order) :
    Order × Nat × Nat × List String :=
  if 0 < getFeatureFlagValue env (fi + 1) "fraudDetectionEnabled" then
    let pct := getFeatureFlagValue env (fi + 2) "mutateFraudOrders"
    if 0 < pct then
      (OrderMutator.mutateOrder o0 pct (env.mutateRand mutInv), mutInv + 1,
       fi + 3, ["fraudDetectionEnabled", "mutateFraudOrders"])
    else (o0, mutInv, fi + 3, ["fraudDetectionEnabled", "mutateFraudOrders"])
  else (o0, mutInv, fi + 2, ["fraudDetectionEnabled"])

/-- `main.kt` lines 175-185: try `saveOrder`; info line on true, warning on
false, error line on a thrown exception — never rethrown. -/
def saveLogEntries (env : Env) (o : Order) : List LogEntry :=
  match env.saveOrder o with
  | Except.ok true => [LogEntry.orderLogged o.orderId]
  | Except.ok false => [LogEntry.orderSaveFailedWarn o.orderId]
  | Except.error _ => [LogEntry.orderSaveException o.orderId]

/-- `main.kt` lines 187-204: when `fraudDetectionEnabled > 0`, run
`analyzeOrder` in a try/catch; an alert bumps `fraudAlertCount`, is logged
as a warning, and every 10th alert also logs the 24h stats; an exception is
logged as an error line and swallowed.  Returns (new alert count, new
analytics invocation count, log lines of this block). -/
def analysisStep (env : Env) (gate : Int) (o : Order)
    (alertCount anInv : Nat) : Nat × Nat × List LogEntry :=
  if 0 < gate then
    match env.analyzeOrder o with
    | Except.ok (some alert) =>
      let c := alertCount + 1
      (c, anInv + 1,
       [LogEntry.fraudAlertLogged alert.orderId alert.severity alert.riskScore]
         ++ (if c % 10 = 0 then [LogEntry.fraudStats] else []))
    | Except.ok none => (alertCount, anInv + 1, [])
    | Except.error _ => (alertCount, anInv + 1, [LogEntry.analysisError o.orderId])
  else (alertCount, anInv, [])

/-- `main.kt` lines 206-217: when `executeBadQueries > 0`, try
`maybeExecuteBadQuery`; info line when it fired, error line on a thrown
exception, swallowed either way. -/
def badQueryLogEntries (env : Env) (pct : Int) : List LogEntry :=
  if 0 < pct then
    match env.badQuery pct with
    | Except.ok true => [LogEntry.badQueryExecuted]
    | Except.ok false => []
    | Except.error _ => [LogEntry.badQueryError]
  else []

/-- The body of the fold lambda after a successful decode: mutation gate,
consumed-record log, save block, analysis gate, bad-query block, producing
the next `ConsumerState`.  The flag calls of one record are, in order:
`kafkaQueueProblems`, `fraudDetectionEnabled`, (`mutateFraudOrders` when the
gate was positive), `fraudDetectionEnabled` again, `executeBadQueries`. -/
def recordStep (env : Env) (st : ConsumerState) (o0 : Order) : ConsumerState :=
  let newCount := st.totalCount + 1
  let fi := st.flagIdx
  let queueLogs :=
    if 0 < getFeatureFlagValue env fi "kafkaQueueProblems" then
      [LogEntry.queueProblemSleep]
    else []
  let m := mutationStep env fi st.mutatorInvocations o0
  let orders := m.1
  let idxA := m.2.2.1
  let a := analysisStep env (getFeatureFlagValue env idxA "fraudDetectionEnabled")
    orders st.fraudAlertCount st.analyzeInvocations
  let badPct := getFeatureFlagValue env (idxA + 1) "executeBadQueries"
  { totalCount := newCount
    fraudAlertCount := a.1
    flagIdx := idxA + 2
    flagQueries := st.flagQueries ++ ["kafkaQueueProblems"] ++ m.2.2.2
      ++ ["fraudDetectionEnabled", "executeBadQueries"]
    mutatorInvocations := m.2.1
    analyzeInvocations := a.2.1
    savedOrders := st.savedOrders ++ [orders]
    logs := st.logs ++ queueLogs ++ [LogEntry.consumed orders.orderId newCount]
      ++ saveLogEntries env orders ++ a.2.2 ++ badQueryLogEntries env badPct }

/-- One iteration of the fold over a poll batch (`main.kt` lines 157-219):
decode the record value with `OrderResult.parseFrom` — whose exception is
NOT caught and therefore aborts the loop — then run `recordStep`. -/
def processRecord (env : Env) (st : ConsumerState) (p : Payload) :
    Except String ConsumerState :=
  match env.parse p with
  | Except.error e => Except.error e
  | Except.ok o0 => Except.ok (recordStep env st o0)

/-- The consumer loop over the records of the polls since startup
(consecutive poll batches concatenate): fold `processRecord`, propagating an
uncaught decode exception, which kills the process. -/
def runBatch (env : Env) (st : ConsumerState) : List Payload → Except String ConsumerState
  | [] => Except.ok st
  | p :: rest =>
    match processRecord env st p with
    | Except.error e => Except.error e
    | Except.ok st' => runBatch env st' rest

/-- The whole service: startup, then the consumer loop.  An outer
`Except.error` is the process exit status of a startup failure (no record is
ever consumed in that case); the inner `Except` is the consumer loop's
outcome. -/
def runService (se : StartupEnv) (env : Env) (ps : List Payload) :
    Except Nat (Except String ConsumerState) :=
  match startup se with
  | Except.error c => Except.error c
  | Except.ok _ => Except.ok (runBatch env initialState ps)

/-! ## Concrete fixtures used by witnesses and counterexamples -/

/-- A benign well-formed order, the decode result of any well-formed payload
in the fixtures. -/
def alwaysOkOrder : Order :=
  { orderId := "order-1"
    items := [{ productId := "p-1", quantity := 1, unitPriceUnits := 10 }]
    shippingCountry := "US", billingCountry := "US"
    totalUnits := 10, currencyCode := "USD", timestamp := 0 }

/-- An environment whose decoder throws exactly on the payload `[255]`, with
every feature flag absent and all other effects succeeding benignly. -/
def envDecodeCrash : Env :=
  { parse := fun p =>
      if p = [255] then Except.error "InvalidProtocolBufferException"
      else Except.ok alwaysOkOrder
    flagService := fun _ _ => none
    saveOrder := fun _ => Except.ok true
    analyzeOrder := fun _ => Except.ok none
    badQuery := fun _ => Except.ok false
    mutateRand := fun _ => 0 }

/-- An environment whose flag service answers `fraudDetectionEnabled`
positively only under the evaluation context of call index 1 (the mutation
gate of the first record) and with 0 under every other context, while
`mutateFraudOrders` is always 100. -/
def envSplitFlag : Env :=
  { parse := fun _ => Except.ok alwaysOkOrder
    flagService := fun ctx ff =>
      if ff = "fraudDetectionEnabled" then
        (if ctx.session = 1 then some 1 else some 0)
      else if ff = "mutateFraudOrders" then some 100
      else some 0
    saveOrder := fun _ => Except.ok true
    analyzeOrder := fun _ =>
      Except.ok (some { orderId := "order-1", severity := Severity.HIGH,
                        riskScore := 80, reason := "heuristic rule score" })
    badQuery := fun _ => Except.ok false
    mutateRand := fun _ => 0 }

/-- Risk-score 110 (amount 50 + country mismatch 30 + quantity 30). -/
def criticalOrder : Order :=
  { orderId := "o-crit"
    items := [{ productId := "p", quantity := 20, unitPriceUnits := 10 }]
    shippingCountry := "US", billingCountry := "DE"
    totalUnits := 1500, currencyCode := "USD", timestamp := 0 }

/-- Risk-score 80 (amount 50 + country mismatch 30). -/
def highOrder : Order :=
  { orderId := "o-high"
    items := [{ productId := "p", quantity := 1, unitPriceUnits := 10 }]
    shippingCountry := "US", billingCountry := "DE"
    totalUnits := 1500, currencyCode := "USD", timestamp := 0 }

/-- Risk-score 60 (amount 30 + country mismatch 30). -/
def mediumOrder : Order :=
  { orderId := "o-med"
    items := [{ productId := "p", quantity := 1, unitPriceUnits := 10 }]
    shippingCountry := "US", billingCountry := "DE"
    totalUnits := 600, currencyCode := "USD", timestamp := 0 }

/-- Risk-score 0. -/
def lowRiskOrder : Order := alwaysOkOrder

/-- An empty process environment. -/
def emptyGetenv : String → Option String := fun _ => none

/-- A process environment setting only `CLEANUP_RETENTION_DAYS`. -/
def retentionGetenv : String → Option String :=
  fun nm => if nm = "CLEANUP_RETENTION_DAYS" then some "12" else none

/-- Startup environment with a reachable database but no `KAFKA_ADDR`. -/
def noKafkaStartupEnv : StartupEnv :=
  { getenv := emptyGetenv, dbInitOk := true }

/-- Startup environment with `KAFKA_ADDR` set and nothing else. -/
def kafkaOnlyStartupEnv : StartupEnv :=
  { getenv := fun nm => if nm = "KAFKA_ADDR" then some "kafka:9092" else none
    dbInitOk := true }

/-! ## Theorems -/

/-- C1 counterexample: a batch whose first record has an undecodable payload.
`OrderResult.parseFrom` is called outside any try/catch (`main.kt` line 163),
so the decode exception propagates out of the fold and the loop dies: the
whole batch evaluates to the uncaught exception, and the well-formed second
record is never consumed — the claim that a decode failure never terminates
the consumer loop is false. -/
theorem decode_failure_kills_loop_cex :
    runBatch envDecodeCrash initialState [[255], [0]] =
      Except.error "InvalidProtocolBufferException" := rfl

/-- C1 (amended): a decode failure is NOT caught: for every environment and
state, a record whose payload fails to decode aborts the consumer loop with
that exception, and no subsequent record of the batch is consumed. -/
theorem decode_failure_aborts_loop (env : Env) (st : ConsumerState)
    (p : Payload) (rest : List Payload) (e : String)
    (h : env.parse p = Except.error e) :
    runBatch env st (p :: rest) = Except.error e := by
  simp [runBatch, processRecord, h]

/-- C1 witness: the amended theorem applied to the concrete crashing
environment and payload. -/
theorem decode_failure_aborts_loop_witness :
    runBatch envDecodeCrash initialState [[255]] =
      Except.error "InvalidProtocolBufferException" :=
  decode_failure_aborts_loop envDecodeCrash initialState [255] [] _ rfl

/-- C6: when `KAFKA_ADDR` is absent or database initialization throws at
startup, the process exits immediately with status 1 (non-zero) and the
consumer loop never runs — `runService` yields the exit status instead of
any consumer outcome. -/
theorem startup_failure_exits_nonzero (se : StartupEnv) (env : Env)
    (ps : List Payload)
    (h : se.getenv "KAFKA_ADDR" = none ∨ se.dbInitOk = false) :
    runService se env ps = Except.error 1 ∧ (1 : Nat) ≠ 0 := by
  refine ⟨?_, by decide⟩
  rcases h with h | h
  · cases hdb : se.dbInitOk <;> simp [runService, startup, hdb, h]
  · simp [runService, startup, h]

/-- C6 witness: a startup environment with a reachable database but no
`KAFKA_ADDR` exits with status 1. -/
theorem startup_failure_exits_nonzero_witness :
    runService noKafkaStartupEnv envDecodeCrash [] = Except.error 1 ∧
      (1 : Nat) ≠ 0 :=
  startup_failure_exits_nonzero noKafkaStartupEnv envDecodeCrash []
    (Or.inl rfl)

/-- C7: `CLEANUP_RETENTION_DAYS` and `CLEANUP_INTERVAL_HOURS` are read as
integers with defaults 7 and 24 — the default applies when the variable is
unset and when it is set but not parseable — and a successful startup starts
the cleanup scheduler with exactly these two values. -/
theorem cleanup_config_defaults (g : String → Option String) :
    (g "CLEANUP_RETENTION_DAYS" = none → cleanupRetentionDays g = 7) ∧
    (∀ s, g "CLEANUP_RETENTION_DAYS" = some s → toIntOrNull s = none →
      cleanupRetentionDays g = 7) ∧
    (∀ s v, g "CLEANUP_RETENTION_DAYS" = some s → toIntOrNull s = some v →
      cleanupRetentionDays g = v) ∧
    (g "CLEANUP_INTERVAL_HOURS" = none → cleanupIntervalHours g = 24) ∧
    (∀ s, g "CLEANUP_INTERVAL_HOURS" = some s → toLongOrNull s = none →
      cleanupIntervalHours g = 24) ∧
    (∀ s v, g "CLEANUP_INTERVAL_HOURS" = some s → toLongOrNull s = some v →
      cleanupIntervalHours g = v) ∧
    (∀ (se : StartupEnv) (cfg : Config), se.getenv = g →
      startup se = Except.ok cfg →
      cfg.schedulerStart =
        { retentionDays := cleanupRetentionDays g
          intervalHours := cleanupIntervalHours g }) := by
  refine ⟨?_, ?_, ?_, ?_, ?_, ?_, ?_⟩
  · intro h; simp [cleanupRetentionDays, h]
  · intro s h1 h2; simp [cleanupRetentionDays, h1, h2]
  · intro s v h1 h2; simp [cleanupRetentionDays, h1, h2]
  · intro h; simp [cleanupIntervalHours, h]
  · intro s h1 h2; simp [cleanupIntervalHours, h1, h2]
  · intro s v h1 h2; simp [cleanupIntervalHours, h1, h2]
  · intro se cfg hge hok
    subst hge
    cases hdb : se.dbInitOk <;> simp [startup, hdb] at hok
    cases hka : se.getenv "KAFKA_ADDR" <;> rw [hka] at hok <;> simp at hok
    subst hok
    rfl

/-- C7 witness: with an empty environment both defaults apply; with
`CLEANUP_RETENTION_DAYS=12` the parsed value is used; a successful startup
records scheduler arguments (7, 24) under the empty environment. -/
theorem cleanup_config_defaults_witness :
    cleanupRetentionDays emptyGetenv = 7 ∧
    cleanupIntervalHours emptyGetenv = 24 ∧
    cleanupRetentionDays retentionGetenv = 12 ∧
    (startup kafkaOnlyStartupEnv).map Config.schedulerStart =
      Except.ok { retentionDays := 7, intervalHours := 24 } := by
  refine ⟨(cleanup_config_defaults emptyGetenv).1 rfl,
    (cleanup_config_defaults emptyGetenv).2.2.2.1 rfl,
    (cleanup_config_defaults retentionGetenv).2.2.1 "12" 12 rfl (by decide),
    ?_⟩
  have h := (cleanup_config_defaults kafkaOnlyStartupEnv.getenv).2.2.2.2.2.2
    kafkaOnlyStartupEnv
    { bootstrapServers := "kafka:9092", retentionDays := 7, intervalHours := 24
      schedulerStart := { retentionDays := 7, intervalHours := 24 } }
    rfl rfl
  simp [startup, kafkaOnlyStartupEnv, cleanupRetentionDays,
    cleanupIntervalHours, emptyGetenv, Except.map]

/-- C2: `analyzeOrder` assigns severity by monotonic score bands: risk score
at least 90 yields a CRITICAL alert, at least 70 and below 90 HIGH, at least
50 and below 70 MEDIUM, and below 50 no alert (`none`, not an error). -/
theorem analyzeOrder_severity_bands (o : Order) :
    (90 ≤ FraudAnalytics.riskScore o →
      ∃ a, FraudAnalytics.analyzeOrder o = some a ∧
        a.severity = Severity.CRITICAL ∧
        a.riskScore = FraudAnalytics.riskScore o) ∧
    (70 ≤ FraudAnalytics.riskScore o → FraudAnalytics.riskScore o < 90 →
      ∃ a, FraudAnalytics.analyzeOrder o = some a ∧
        a.severity = Severity.HIGH ∧
        a.riskScore = FraudAnalytics.riskScore o) ∧
    (50 ≤ FraudAnalytics.riskScore o → FraudAnalytics.riskScore o < 70 →
      ∃ a, FraudAnalytics.analyzeOrder o = some a ∧
        a.severity = Severity.MEDIUM ∧
        a.riskScore = FraudAnalytics.riskScore o) ∧
    (FraudAnalytics.riskScore o < 50 →
      FraudAnalytics.analyzeOrder o = none) := by
  refine ⟨?_, ?_, ?_, ?_⟩
  · intro h
    simp only [FraudAnalytics.analyzeOrder, FraudAnalytics.severityForScore,
      if_pos h]
    exact ⟨_, rfl, rfl, rfl⟩
  · intro h1 h2
    simp only [FraudAnalytics.analyzeOrder, FraudAnalytics.severityForScore,
      if_neg (by omega : ¬ 90 ≤ FraudAnalytics.riskScore o), if_pos h1]
    exact ⟨_, rfl, rfl, rfl⟩
  · intro h1 h2
    simp only [FraudAnalytics.analyzeOrder, FraudAnalytics.severityForScore,
      if_neg (by omega : ¬ 90 ≤ FraudAnalytics.riskScore o),
      if_neg (by omega : ¬ 70 ≤ FraudAnalytics.riskScore o), if_pos h1]
    exact ⟨_, rfl, rfl, rfl⟩
  · intro h
    simp only [FraudAnalytics.analyzeOrder, FraudAnalytics.severityForScore,
      if_neg (by omega : ¬ 90 ≤ FraudAnalytics.riskScore o),
      if_neg (by omega : ¬ 70 ≤ FraudAnalytics.riskScore o),
      if_neg (by omega : ¬ 50 ≤ FraudAnalytics.riskScore o)]

/-- C2 witness: one concrete order in each band. -/
theorem analyzeOrder_severity_bands_witness :
    (∃ a, FraudAnalytics.analyzeOrder criticalOrder = some a ∧
      a.severity = Severity.CRITICAL ∧
      a.riskScore = FraudAnalytics.riskScore criticalOrder) ∧
    (∃ a, FraudAnalytics.analyzeOrder highOrder = some a ∧
      a.severity = Severity.HIGH ∧
      a.riskScore = FraudAnalytics.riskScore highOrder) ∧
    (∃ a, FraudAnalytics.analyzeOrder mediumOrder = some a ∧
      a.severity = Severity.MEDIUM ∧
      a.riskScore = FraudAnalytics.riskScore mediumOrder) ∧
    FraudAnalytics.analyzeOrder lowRiskOrder = none :=
  ⟨(analyzeOrder_severity_bands criticalOrder).1 (by decide),
   (analyzeOrder_severity_bands highOrder).2.1 (by decide) (by decide),
   (analyzeOrder_severity_bands mediumOrder).2.2.1 (by decide) (by decide),
   (analyzeOrder_severity_bands lowRiskOrder).2.2.2 (by decide)⟩

/-- C3: for every decoded order, a thrown `saveOrder` exception is caught
and logged as an error line, a false `saveOrder` return is logged as a
warning (not raised), a thrown `analyzeOrder` exception (when the analysis
gate is on) is caught and logged as an error line, and in all cases the
record is fully processed and the loop proceeds to the rest of the batch. -/
theorem per_order_failures_isolated (env : Env) (st : ConsumerState)
    (p : Payload) (rest : List Payload) (o : Order)
    (h : env.parse p = Except.ok o) :
    ∃ st' ord, processRecord env st p = Except.ok st' ∧
      st'.savedOrders = st.savedOrders ++ [ord] ∧
      runBatch env st (p :: rest) = runBatch env st' rest ∧
      ((∃ e, env.saveOrder ord = Except.error e) →
        LogEntry.orderSaveException ord.orderId ∈ st'.logs) ∧
      (env.saveOrder ord = Except.ok false →
        LogEntry.orderSaveFailedWarn ord.orderId ∈ st'.logs) ∧
      ((∃ e, env.analyzeOrder ord = Except.error e) →
        0 < getFeatureFlagValue env (st'.flagIdx - 2) "fraudDetectionEnabled" →
        LogEntry.analysisError ord.orderId ∈ st'.logs) := by
  refine ⟨recordStep env st o,
    (mutationStep env st.flagIdx st.mutatorInvocations o).1,
    ?_, ?_, ?_, ?_, ?_, ?_⟩
  · simp [processRecord, h]
  · simp [recordStep]
  · simp [runBatch, processRecord, h]
  · rintro ⟨e, he⟩
    simp [recordStep, saveLogEntries, he]
  · intro he
    simp [recordStep, saveLogEntries, he]
  · rintro ⟨e, he⟩ hg
    simp only [recordStep, Nat.add_sub_cancel] at hg ⊢
    simp [analysisStep, he, if_pos hg]

/-- C3 witness: a concrete environment whose `saveOrder` always throws;
the record is still processed and the error line is logged. -/
theorem per_order_failures_isolated_witness :
    ∃ st' ord,
      processRecord
        { envDecodeCrash with
          saveOrder := fun _ => Except.error "connection lost" }
        initialState [0] = Except.ok st' ∧
      st'.savedOrders = initialState.savedOrders ++ [ord] ∧
      runBatch
        { envDecodeCrash with
          saveOrder := fun _ => Except.error "connection lost" }
        initialState [[0]] =
        runBatch
          { envDecodeCrash with
            saveOrder := fun _ => Except.error "connection lost" }
          st' [] ∧
      ((∃ e, ({ envDecodeCrash with
          saveOrder := fun _ => Except.error "connection lost" } : Env).saveOrder
            ord = Except.error e) →
        LogEntry.orderSaveException ord.orderId ∈ st'.logs) ∧
      (({ envDecodeCrash with
          saveOrder := fun _ => Except.error "connection lost" } : Env).saveOrder
            ord = Except.ok false →
        LogEntry.orderSaveFailedWarn ord.orderId ∈ st'.logs) ∧
      ((∃ e, ({ envDecodeCrash with
          saveOrder := fun _ => Except.error "connection lost" } : Env).analyzeOrder
            ord = Except.error e) →
        0 < getFeatureFlagValue
          { envDecodeCrash with
            saveOrder := fun _ => Except.error "connection lost" }
          (st'.flagIdx - 2) "fraudDetectionEnabled" →
        LogEntry.analysisError ord.orderId ∈ st'.logs) :=
  per_order_failures_isolated
    { envDecodeCrash with saveOrder := fun _ => Except.error "connection lost" }
    initialState [0] [] alwaysOkOrder rfl

/-- C4: `mutateOrder` at mutation probability 0 is the identity for every
order and every random draw; moreover, whenever the `mutateFraudOrders`
percentage evaluates to 0 for a message, the order handed to `saveOrder` is
exactly the decoded order. -/
theorem mutate_zero_identity :
    (∀ (o : Order) (r : Nat), OrderMutator.mutateOrder o 0 r = o) ∧
    ∀ (env : Env) (st : ConsumerState) (p : Payload) (o : Order),
      env.parse p = Except.ok o →
      getFeatureFlagValue env (st.flagIdx + 2) "mutateFraudOrders" = 0 →
      ∃ st', processRecord env st p = Except.ok st' ∧
        st'.savedOrders = st.savedOrders ++ [o] := by
  constructor
  · intro o r
    unfold OrderMutator.mutateOrder
    rw [if_neg (by omega)]
  · intro env st p o hp hflag
    refine ⟨recordStep env st o, by simp [processRecord, hp], ?_⟩
    by_cases hg :
        0 < getFeatureFlagValue env (st.flagIdx + 1) "fraudDetectionEnabled" <;>
      simp [recordStep, mutationStep, hg, hflag]

/-- C4 witness: identity at probability 0 on a concrete order and draw, and
the saved order equals the decoded one in the all-flags-absent
environment. -/
theorem mutate_zero_identity_witness :
    OrderMutator.mutateOrder alwaysOkOrder 0 7 = alwaysOkOrder ∧
    ∃ st', processRecord envDecodeCrash initialState [0] = Except.ok st' ∧
      st'.savedOrders = initialState.savedOrders ++ [alwaysOkOrder] :=
  ⟨mutate_zero_identity.1 alwaysOkOrder 7,
   mutate_zero_identity.2 envDecodeCrash initialState [0] alwaysOkOrder
     rfl rfl⟩

/-- C5: a feature-flag lookup returns the default 0 whenever the flag
service has no answer for that flag under the call's context (flag absent
or service unreachable); and each successfully processed message performs
its own fresh lookups — the call-context index advances by at least 4 per
message and the per-message queries are `kafkaQueueProblems`,
`fraudDetectionEnabled` (twice — once gating mutation, once gating
analysis), `executeBadQueries`, plus `mutateFraudOrders` exactly when the
mutation gate was positive. -/
theorem flag_lookup_per_message_default_zero :
    (∀ (env : Env) (n : Nat) (ff : String),
      env.flagService (freshContext n) ff = none →
      getFeatureFlagValue env n ff = 0) ∧
    ∀ (env : Env) (st : ConsumerState) (p : Payload) (o : Order),
      env.parse p = Except.ok o →
      ∃ st', processRecord env st p = Except.ok st' ∧
        st.flagIdx + 4 ≤ st'.flagIdx ∧
        (st'.flagQueries = st.flagQueries ++
            ["kafkaQueueProblems", "fraudDetectionEnabled",
             "mutateFraudOrders", "fraudDetectionEnabled",
             "executeBadQueries"] ∨
         st'.flagQueries = st.flagQueries ++
            ["kafkaQueueProblems", "fraudDetectionEnabled",
             "fraudDetectionEnabled", "executeBadQueries"]) := by
  constructor
  · intro env n ff h
    simp [getFeatureFlagValue, h]
  · intro env st p o hp
    refine ⟨recordStep env st o, by simp [processRecord, hp], ?_, ?_⟩ <;>
      by_cases hg :
        0 < getFeatureFlagValue env (st.flagIdx + 1) "fraudDetectionEnabled" <;>
      by_cases hm :
        0 < getFeatureFlagValue env (st.flagIdx + 2) "mutateFraudOrders" <;>
      simp [recordStep, mutationStep, hg, hm]

/-- C5 witness: in the all-flags-absent environment the lookup defaults to
0, and a concrete message performs its fresh per-message lookups. -/
theorem flag_lookup_per_message_default_zero_witness :
    getFeatureFlagValue envDecodeCrash 0 "kafkaQueueProblems" = 0 ∧
    ∃ st', processRecord envDecodeCrash initialState [0] = Except.ok st' ∧
      initialState.flagIdx + 4 ≤ st'.flagIdx ∧
      (st'.flagQueries = initialState.flagQueries ++
          ["kafkaQueueProblems", "fraudDetectionEnabled",
           "mutateFraudOrders", "fraudDetectionEnabled",
           "executeBadQueries"] ∨
       st'.flagQueries = initialState.flagQueries ++
          ["kafkaQueueProblems", "fraudDetectionEnabled",
           "fraudDetectionEnabled", "executeBadQueries"]) :=
  ⟨flag_lookup_per_message_default_zero.1 envDecodeCrash 0
     "kafkaQueueProblems" rfl,
   flag_lookup_per_message_default_zero.2 envDecodeCrash initialState [0]
     alwaysOkOrder rfl⟩

/-- C8: when the mutation-gate evaluation of `fraudDetectionEnabled` yields
0 for a message, the order mutator is never invoked for that message —
whatever `mutateFraudOrders` would return — and the order handed to
`saveOrder` is exactly the decoded order. -/
theorem fraud_flag_zero_skips_mutation (env : Env) (st : ConsumerState)
    (p : Payload) (o : Order)
    (hp : env.parse p = Except.ok o)
    (hflag : getFeatureFlagValue env (st.flagIdx + 1) "fraudDetectionEnabled" = 0) :
    ∃ st', processRecord env st p = Except.ok st' ∧
      st'.mutatorInvocations = st.mutatorInvocations ∧
      st'.savedOrders = st.savedOrders ++ [o] := by
  refine ⟨recordStep env st o, by simp [processRecord, hp], ?_, ?_⟩ <;>
    simp [recordStep, mutationStep, hflag]

/-- C8 witness: in an environment where `fraudDetectionEnabled` is 0 but
`mutateFraudOrders` is 100, the mutator is not invoked and the decoded
order is saved. -/
theorem fraud_flag_zero_skips_mutation_witness :
    ∃ st',
      processRecord
        { envDecodeCrash with
          flagService := fun _ ff =>
            if ff = "mutateFraudOrders" then some 100 else some 0 }
        initialState [0] = Except.ok st' ∧
      st'.mutatorInvocations = initialState.mutatorInvocations ∧
      st'.savedOrders = initialState.savedOrders ++ [alwaysOkOrder] :=
  fraud_flag_zero_skips_mutation
    { envDecodeCrash with
      flagService := fun _ ff =>
        if ff = "mutateFraudOrders" then some 100 else some 0 }
    initialState [0] alwaysOkOrder rfl rfl

/-- C9: every flag lookup gets a fresh evaluation context — the session
token of call n determines n, so no two calls share a context — and
`fraudDetectionEnabled` is evaluated twice while processing one message;
the two evaluations are independent: in `envSplitFlag` the mutation-gate
evaluation returns 1 while the analysis-gate evaluation returns 0, so the
same message is mutated (one mutator invocation) yet never analyzed. -/
theorem fraud_flag_evaluated_twice_independently :
    (∀ m n : Nat, freshContext m = freshContext n ↔ m = n) ∧
    getFeatureFlagValue envSplitFlag 1 "fraudDetectionEnabled" = 1 ∧
    getFeatureFlagValue envSplitFlag 3 "fraudDetectionEnabled" = 0 ∧
    ∃ st', processRecord envSplitFlag initialState [0] = Except.ok st' ∧
      st'.flagQueries.count "fraudDetectionEnabled" = 2 ∧
      st'.mutatorInvocations = 1 ∧
      st'.analyzeInvocations = 0 := by
  refine ⟨?_, by decide, by decide, recordStep envSplitFlag initialState alwaysOkOrder,
    rfl, by decide, by decide, by decide⟩
  intro m n
  constructor
  · intro h
    exact congrArg EvalContext.session h
  · intro h
    rw [h]

/-- C10 counterexample: a three-record poll whose middle payload fails to
decode.  The uncaught decode exception aborts the fold, the `totalCount`
assignment is never reached, and the batch yields no state at all — so the
running total does not equal the number of records polled (3), refuting the
claim for records that fail to decode. -/
theorem total_count_lost_on_decode_crash_cex :
    runBatch envDecodeCrash initialState [[0], [255], [0]] =
      Except.error "InvalidProtocolBufferException" := rfl

/-- C10 (amended): provided every payload of the polls decodes, the running
total increases by exactly one per record — independent of the outcomes of
persistence, fraud analysis and the bad-query injector, which the theorem
quantifies over through `env` — and after any batch it equals its previous
value plus the number of records polled. -/
theorem total_count_tracks_decoded_records (env : Env) :
    ∀ (ps : List Payload) (st : ConsumerState),
      (∀ p ∈ ps, ∃ o, env.parse p = Except.ok o) →
      ∃ st', runBatch env st ps = Except.ok st' ∧
        st'.totalCount = st.totalCount + ps.length := by
  intro ps
  induction ps with
  | nil =>
    intro st _
    exact ⟨st, rfl, by simp⟩
  | cons p rest ih =>
    intro st h
    obtain ⟨o, ho⟩ := h p (by simp)
    obtain ⟨st', h1, h2⟩ :=
      ih (recordStep env st o) (fun q hq => h q (by simp [hq]))
    refine ⟨st', ?_, ?_⟩
    · simp [runBatch, processRecord, ho, h1]
    · simp only [h2, recordStep, List.length_cons]
      omega

/-- C10 witness: a two-record all-decodable batch ends with total 2. -/
theorem total_count_tracks_decoded_records_witness :
    ∃ st', runBatch envDecodeCrash initialState [[0], [1]] = Except.ok st' ∧
      st'.totalCount = initialState.totalCount + 2 := by
  have hyp : ∀ p ∈ ([[0], [1]] : List Payload),
      ∃ o, envDecodeCrash.parse p = Except.ok o := by
    intro p hp
    simp only [List.mem_cons, List.not_mem_nil, or_false] at hp
    rcases hp with rfl | rfl <;> exact ⟨alwaysOkOrder, rfl⟩
  exact total_count_tracks_decoded_records envDecodeCrash [[0], [1]]
    initialState hyp

end FraudDetection
